import Mathlib

/-!
Verification development for the smart-trader repository.

Shallow embedding of the decision pipeline:
- `trading_logic.py` (position sizing, gating/aggregation, MTF veto, decide)
- `indicators.py` (RSI, ADX, smoothed volatility ratio)
- `behavior_engine.py` (behavior scores, VSA, RVOL, whale bias)
- `main.py` (`_maybe_close_position` exit management)
- `market_providers.py` (`MarketDataGateway.get_candles` fallback chain)

Modelling conventions:
- Python floats are modelled as exact rationals; functions that use
  transcendental operations (exp, tanh in the behavior engine) are
  modelled over the reals.  Finiteness guards (`math.isfinite`) are
  always true in this model; NaN values arising from `pandas` (e.g. the
  head of a `diff`) are modelled as `Option` values (`none` = NaN).
- Python dicts with `get`-and-default access are modelled as functions
  into `Option` plus `Option.getD`.
- f-string interpolation of numeric values inside reason/explanation
  strings is elided: the static template text is kept, the interpolated
  numbers are not reproduced.  No claim depends on that text except the
  literal string of the insufficient-data branch, which is verbatim.
- Division by zero is total (`x / 0 = 0`) as usual in Lean; the code
  never divides by an exact zero on the paths the claims exercise.
-/

namespace SmartTrader

/-- `_clamp(x, lo, hi)` from trading_logic.py: `max(lo, min(hi, x))`
(the `except` branch is unreachable over exact rationals). -/
def _clamp (x lo hi : ℚ) : ℚ := max lo (min hi x)

theorem _clamp_mem (x lo hi : ℚ) (h : lo ≤ hi) :
    lo ≤ _clamp x lo hi ∧ _clamp x lo hi ≤ hi := by
  constructor
  · exact le_max_left _ _
  · exact max_le h (min_le_left _ _)

/-- Behavior details as read by `_check_whale_gate` from the
`behavior_details` dict (keys `supply_overcoming_demand`, `vsa_signal`,
`whale_bias`, with defaults `False`, `""`, `0.0`). -/
structure BehaviorDetails where
  supply_overcoming_demand : Bool := false
  vsa_signal : String := ""
  whale_bias : ℚ := 0
deriving DecidableEq

/-- `DecisionContext` dataclass from trading_logic.py. -/
structure DecisionContext where
  trend_raw : ℚ
  momentum_raw : ℚ
  meanrev_raw : ℚ
  breakout_raw : ℚ
  adx : ℚ
  atr : ℚ
  price : ℚ
  tf : String
  regime : String
  vol_ratio : Option ℚ := none
  timestamp : Option String := none
  trend : ℚ := 0
  momentum : ℚ := 0
  meanrev : ℚ := 0
  breakout : ℚ := 0
  aggregate_s : ℚ := 0
  confirm_s : ℚ := 0
  confirm_adx : ℚ := 0
  confirm_rsi : ℚ := 0
  reasons : List String := []
  behavior_score : Option ℚ := none
  behavior_bias : ℚ := 0
  behavior_details : Option BehaviorDetails := none
  behavior_providers : Option (List String) := none
deriving DecidableEq

/-- `StrategyParams` dataclass from trading_logic.py.  The weight and
regime-scale dicts are modelled as `String → Option ℚ` (`.get k d` =
`(f k).getD d`). -/
structure StrategyParams where
  weights : String → Option ℚ
  s_buy : ℚ
  s_sell : ℚ
  min_adx_for_trend : ℚ
  allow_intracandle : Bool
  regime_scale : String → Option ℚ
  max_risk_per_trade : ℚ
  atr_stop_mult : ℚ
  require_mtf_agreement : Bool
  decision_buffer : ℚ
  mtf_confirm_bar : ℚ
  min_vr_trade : ℚ := 88/100
  min_vr_intracandle : ℚ := 95/100
  vr_adapt_k : ℚ := 25/100
  vr_adapt_clamp : ℚ := 8/100
  impulse_only_high : Bool := true
  behavior_weight : ℚ := 15/100

/-- `Position` dataclass from trading_logic.py. -/
structure Position where
  side : String
  qty : ℚ
  entry_price : ℚ
  stop_price : Option ℚ := none
  trade_id : Option String := none
  breakeven_armed : Bool := false
  tp_hit : Bool := false
  opened_at_ts : Option ℤ := none
deriving DecidableEq

/-- `position_size_by_risk` from trading_logic.py.  `_is_finite_positive`
degenerates to positivity over ℚ; the `isfinite` guards on equity and
risk fraction are always true. -/
def position_size_by_risk (equity max_risk_frac entry : ℚ)
    (stop : Option ℚ) : ℚ :=
  match stop with
  | none => 0
  | some s =>
    if ¬ 0 < entry then 0
    else
      let risk_per_unit := |entry - s|
      if risk_per_unit ≤ 0 then 0
      else
        let capital_risk := max equity 0 * max max_risk_frac 0
        let qty := capital_risk / risk_per_unit
        if qty ≤ 0 then 0 else qty

namespace SignalEngine

/-- `SignalEngine._safe_get_weight`: `float(weights.get(name, 0.0))`,
with the finiteness/exception guards trivial over ℚ. -/
def _safe_get_weight (p : StrategyParams) (name : String) : ℚ :=
  (p.weights name).getD 0

/-- The five channel weights handled by `_get_dynamic_weights`. -/
structure ChannelWeights where
  trend : ℚ
  momentum : ℚ
  meanrev : ℚ
  breakout : ℚ
  behavior : ℚ

def ChannelWeights.total (w : ChannelWeights) : ℚ :=
  w.trend + w.momentum + w.meanrev + w.breakout + w.behavior

def ChannelWeights.scaleInv (w : ChannelWeights) (t : ℚ) : ChannelWeights :=
  ⟨w.trend / t, w.momentum / t, w.meanrev / t, w.breakout / t, w.behavior / t⟩

/-- `SignalEngine._get_dynamic_weights` from trading_logic.py. -/
def _get_dynamic_weights (p : StrategyParams) (regime : String) : ChannelWeights :=
  let base : ChannelWeights :=
    ⟨_safe_get_weight p "trend", _safe_get_weight p "momentum",
     _safe_get_weight p "meanrev", _safe_get_weight p "breakout",
     _safe_get_weight p "behavior"⟩
  if base.total ≤ 0 then base
  else
    let normalized := base.scaleInv base.total
    let adjusted :=
      if regime = "LOW" then
        { normalized with
          meanrev := normalized.meanrev * (14/10),
          trend := normalized.trend * (7/10),
          breakout := normalized.breakout * (8/10) }
      else if regime = "HIGH" then
        { normalized with
          breakout := normalized.breakout * (13/10),
          behavior := normalized.behavior * (12/10),
          meanrev := normalized.meanrev * (6/10),
          trend := normalized.trend * (11/10) }
      else normalized
    if 0 < adjusted.total then adjusted.scaleInv adjusted.total else adjusted

/-- `SignalEngine.gate_and_weight` from trading_logic.py.  The reason
strings keep the static template text of the corresponding f-strings. -/
def gate_and_weight (p : StrategyParams) (dc : DecisionContext) : DecisionContext :=
  let trend_component :=
    if dc.adx < p.min_adx_for_trend then dc.trend_raw * (4/10) else dc.trend_raw
  let gateReason :=
    if dc.adx < p.min_adx_for_trend then "Trend downscaled (ADX below min)"
    else "Trend active (ADX at or above min)"
  let mom := dc.momentum_raw
  let bo := dc.breakout_raw
  let conflict :=
    (0 < dc.trend_raw ∧ dc.meanrev_raw < -(40/100)) ∨
    (dc.trend_raw < 0 ∧ (40/100 : ℚ) < dc.meanrev_raw)
  let mr := if conflict then dc.meanrev_raw * (2/10) else dc.meanrev_raw
  let conflictReasons : List String :=
    if conflict then ["Trend/MeanRev conflict: meanrev suppressed"] else []
  let dynamic_weights := _get_dynamic_weights p dc.regime
  let regime_scale := (p.regime_scale dc.regime).getD 1
  let behavior_bias := dc.behavior_bias
  let aggregate :=
    dynamic_weights.trend * trend_component +
    dynamic_weights.momentum * mom +
    dynamic_weights.meanrev * mr +
    dynamic_weights.breakout * bo +
    dynamic_weights.behavior * behavior_bias
  let raw_aggregate := aggregate * regime_scale
  let agg := _clamp raw_aggregate (-2) 2
  let clampReasons : List String :=
    if 2 < |raw_aggregate| then
      ["Aggregate clamped (low-liquidity spike protection)"] else []
  { dc with
    trend := trend_component,
    momentum := mom,
    meanrev := mr,
    breakout := bo,
    aggregate_s := agg,
    reasons := dc.reasons ++ ([gateReason] ++ conflictReasons ++
      ["Dynamic weights (regime-adjusted)"] ++ clampReasons ++
      ["Aggregate (regime_scale applied)"]) }

/-- `SignalEngine._mtf_confirm_pass` from trading_logic.py. -/
def _mtf_confirm_pass (p : StrategyParams) (dc_primary : DecisionContext)
    (dc_confirm : Option DecisionContext) : Bool × List String :=
  if ¬ p.require_mtf_agreement then (true, ["MTF agreement not required"])
  else
    let primary_s := dc_primary.aggregate_s
    match dc_confirm with
    | none => (true, ["MTF missing: PASS (no veto)"])
    | some c =>
      let confirm_s := c.aggregate_s
      let veto_bar := max (p.decision_buffer * 2) (max (p.mtf_confirm_bar * (35/100)) (5/100))
      if 0 < primary_s ∧ confirm_s < -veto_bar then (false, ["MTF veto"])
      else if primary_s < 0 ∧ veto_bar < confirm_s then (false, ["MTF veto"])
      else (true, ["MTF pass (no veto)"])

/-- `SignalEngine._build_stop` from trading_logic.py. -/
def _build_stop (side : String) (entry atr atr_mult : ℚ) : Option ℚ :=
  if ¬ 0 < entry then none
  else if atr ≤ 0 ∨ atr_mult ≤ 0 then none
  else
    let stop := if side = "LONG" then entry - atr_mult * atr else entry + atr_mult * atr
    some (max stop 0)

/-- `SignalEngine._check_whale_gate` from trading_logic.py.  An absent
(or, in Python, empty) `behavior_details` dict yields `(False, None)`. -/
def _check_whale_gate (dc_primary : DecisionContext) (trend_val primary_s : ℚ) :
    Bool × Option String :=
  match dc_primary.behavior_details with
  | none => (false, none)
  | some bd =>
    let is_bullish_trend := (3/10 : ℚ) < trend_val ∧ 0 < primary_s
    let is_bearish_whale :=
      bd.supply_overcoming_demand = true ∨ bd.vsa_signal = "DISTRIBUTION" ∨
      (bd.vsa_signal = "ABSORPTION" ∧ bd.whale_bias < -(3/10))
    if is_bullish_trend ∧ is_bearish_whale then
      (true, some "WHALE_GATE: bullish trend but supply overcoming demand: HOLD")
    else
      let is_bearish_trend := trend_val < -(3/10) ∧ primary_s < 0
      let is_bullish_whale := bd.vsa_signal = "ABSORPTION" ∧ (3/10 : ℚ) < bd.whale_bias
      if is_bearish_trend ∧ is_bullish_whale then
        (true, some "WHALE_GATE: bearish trend but bullish whale activity: HOLD")
      else (false, none)

/-- The regime key used by `decide`: `dc_primary.regime or "NEUTRAL"`
(empty string is falsy in Python). -/
def regime_key (dc : DecisionContext) : String :=
  if dc.regime = "" then "NEUTRAL" else dc.regime

/-- The effective volatility ratio `vr` computed by `decide`: the
context value when present (always finite over ℚ), otherwise the
regime-keyed fallback dict lookup with default 1.0. -/
def effective_vr (dc : DecisionContext) : ℚ :=
  match dc.vol_ratio with
  | some v => v
  | none =>
    if regime_key dc = "LOW" then 85/100
    else if regime_key dc = "NEUTRAL" then 1
    else if regime_key dc = "HIGH" then 115/100
    else 1

/-- `SignalEngine.decide` from trading_logic.py.  Returns
`(action, position, updated primary context)`; the context threads the
reason appends that the Python method performs on `dc_primary`. -/
def decide (p : StrategyParams) (dc_primary : DecisionContext)
    (dc_confirm : Option DecisionContext) : String × Option Position × DecisionContext :=
  let buf := p.decision_buffer
  let base_buy_th := p.s_buy - max buf 0
  let base_sell_th := p.s_sell - max buf 0
  let regime_scale := (p.regime_scale dc_primary.regime).getD 1
  let vr := effective_vr dc_primary
  let vr_shift := _clamp ((vr - 1) * p.vr_adapt_k) (-p.vr_adapt_clamp) p.vr_adapt_clamp
  let buy_th := base_buy_th / regime_scale - vr_shift
  let sell_th := base_sell_th / regime_scale - vr_shift
  let dc1 := { dc_primary with reasons := dc_primary.reasons ++ ["Thresholds"] }
  let mtf := _mtf_confirm_pass p dc_primary dc_confirm
  let mtf_ok := mtf.1
  let dc2 := { dc1 with reasons := dc1.reasons ++ mtf.2 }
  let primary_s := dc_primary.aggregate_s
  let trend_val := dc_primary.trend
  let low_vol_guard := vr < p.min_vr_trade
  let dc3 :=
    if low_vol_guard then { dc2 with reasons := dc2.reasons ++ ["VOL_GUARD: vr below min_vr_trade"] }
    else dc2
  let entry := max dc_primary.price 0
  let atr := max dc_primary.atr 0
  let whale := _check_whale_gate dc_primary trend_val primary_s
  if whale.1 = true ∧ whale.2.isSome = true then
    ("HOLD", none, { dc3 with reasons := dc3.reasons ++ [whale.2.getD ""] })
  else
    let adx_val := dc_primary.adx
    let bo_val := dc_primary.breakout
    let regime := regime_key dc_primary
    let trend_strength := |trend_val|
    let breakout_strength := |bo_val|
    let has_strong_trend := (45/100 : ℚ) ≤ trend_strength ∧ p.min_adx_for_trend ≤ adx_val
    let has_strong_breakout := (35/100 : ℚ) ≤ breakout_strength
    if regime = "HIGH" ∧ has_strong_trend ∧ has_strong_breakout ∧ mtf_ok = true ∧
        ¬ low_vol_guard ∧ 0 < entry then
      let side := if 0 < trend_val then "LONG" else "SHORT"
      let stop_price := _build_stop side entry atr p.atr_stop_mult
      let pos : Position := { side := side, qty := 0, entry_price := entry, stop_price := stop_price }
      let action := if side = "LONG" then "BUY" else "SELL"
      (action, some pos, { dc3 with reasons := dc3.reasons ++ ["FAST_DECISION: HIGH regime impulse"] })
    else if low_vol_guard then
      ("HOLD", none, { dc3 with reasons := dc3.reasons ++ ["VOL_GUARD: Low volatility: HOLD"] })
    else
      let wants_long := buy_th ≤ primary_s ∧ mtf_ok = true
      let wants_short := primary_s ≤ -sell_th ∧ mtf_ok = true
      let stop_long := _build_stop "LONG" entry atr p.atr_stop_mult
      let stop_short := _build_stop "SHORT" entry atr p.atr_stop_mult
      if wants_long then
        ("BUY", some { side := "LONG", qty := 0, entry_price := entry, stop_price := stop_long },
          { dc3 with reasons := dc3.reasons ++ ["Decision BUY"] })
      else if wants_short then
        ("SELL", some { side := "SHORT", qty := 0, entry_price := entry, stop_price := stop_short },
          { dc3 with reasons := dc3.reasons ++ ["Decision SELL"] })
      else
        ("HOLD", none, { dc3 with reasons := dc3.reasons ++ ["HOLD: below thresholds"] })

end SignalEngine

/-! ## indicators.py

`_safe_series` coerces to finite floats (identity over ℚ input, which is
how these functions are modelled: the input list already holds the
finite values the pandas series would contain after `_safe_series`).
`pandas` NaN values produced downstream (the head of `Series.diff`) are
modelled as `Option` (`none` = NaN).
-/

/-- `1e-12`, the `_EPS` guard of indicators.py. -/
def _EPS : ℚ := 1/1000000000000

/-- One step stream of `Series.ewm(adjust=False).mean()` after the first
value: `y_i = (1-α)·y_(i-1) + α·x_i`. -/
def ewmAux (α : ℚ) : ℚ → List ℚ → List ℚ
  | _, [] => []
  | y, x :: xs =>
    let y2 := (1 - α) * y + α * x
    y2 :: ewmAux α y2 xs

/-- `Series.ewm(adjust=False).mean()` on a NaN-free series: the first
output equals the first input, later outputs follow the recursion. -/
def ewmMean (α : ℚ) : List ℚ → List ℚ
  | [] => []
  | x :: xs => x :: ewmAux α x xs

/-- The smoothing factor of `ewm(span=n)`: `α = 2/(n+1)`. -/
def spanAlpha (n : ℕ) : ℚ := 2 / ((n : ℚ) + 1)

/-- `Series.diff()` without its leading NaN: element `i` is
`s[i+1] - s[i]` (length `n-1`). -/
def diffs (l : List ℚ) : List ℚ :=
  List.zipWith (fun prev cur => cur - prev) l l.tail

/-- `calculate_rsi` from indicators.py.  The output series has the same
length as the input; its head is `none` (the NaN introduced by
`Series.diff`, which `clip` does not replace), all later entries are
values in the pandas series. -/
def calculate_rsi (s : List ℚ) (period : ℕ) : List (Option ℚ) :=
  match s with
  | [] => []
  | _ :: _ =>
    let ds := diffs s
    let up := ds.map (fun d => max d 0)
    let down := ds.map (fun d => max (-d) 0)
    let roll_up := ewmMean (spanAlpha period) up
    let roll_down := ewmMean (spanAlpha period) down
    let rsis := List.zipWith
      (fun u d =>
        let rs := u / (d + _EPS)
        _clamp (100 - 100 / (1 + rs)) 0 100)
      roll_up roll_down
    none :: rsis.map some

/-- One OHLC row (`high`, `low`, `close` columns) for `calculate_adx`. -/
structure OhlcBar where
  high : ℚ
  low : ℚ
  close : ℚ
deriving DecidableEq

/-- `calculate_adx` from indicators.py.  The leading NaNs of the `diff`
based directional movements are turned into `0.0` by the two `where`
masks (a NaN comparison is false), so the output series is NaN-free;
note that the second mask compares against the already-masked `plus_dm`,
exactly as the source does. -/
def calculate_adx (df : List OhlcBar) (period : ℕ) : List ℚ :=
  match df with
  | [] => []
  | b0 :: _ =>
    let high := df.map (·.high)
    let low := df.map (·.low)
    let close := df.map (·.close)
    let up_move := diffs high
    let down_move := (diffs low).map (fun d => -d)
    let plus_dm_raw := up_move.map (fun d => max d 0)
    let minus_dm_raw := down_move.map (fun d => max d 0)
    let plus_dm_tail := List.zipWith
      (fun pd md => if md ≤ pd then pd else 0) plus_dm_raw minus_dm_raw
    let minus_dm_tail := List.zipWith
      (fun md pd => if pd < md then md else 0) minus_dm_raw plus_dm_tail
    let plus_dm := 0 :: plus_dm_tail
    let minus_dm := 0 :: minus_dm_tail
    let tr_tail := List.zipWith
      (fun (hl : ℚ × ℚ) prev_close =>
        max (hl.1 - hl.2) (max |hl.1 - prev_close| |hl.2 - prev_close|))
      (List.zip high.tail low.tail) close
    let tr := (b0.high - b0.low) :: tr_tail
    let atr := ewmMean (1 / (period : ℚ)) tr
    let plus_di := List.zipWith
      (fun dm a => 100 * (dm / (a + _EPS))) (ewmMean (1 / (period : ℚ)) plus_dm) atr
    let minus_di := List.zipWith
      (fun dm a => 100 * (dm / (a + _EPS))) (ewmMean (1 / (period : ℚ)) minus_dm) atr
    let dx := List.zipWith
      (fun pdi mdi => 100 * (|pdi - mdi| / (pdi + mdi + _EPS))) plus_di minus_di
    let adx := ewmMean (1 / (period : ℚ)) dx
    adx.map (fun x => _clamp x 0 100)

/-- `Series.rolling(win, min_periods=minp).mean()` on a NaN-free series:
at index `i` the window is the last `min(i+1, win)` observations; the
mean is produced once the window count reaches `minp`, else NaN. -/
def rollingMeanMin (win minp : ℕ) (l : List ℚ) : List (Option ℚ) :=
  (List.range l.length).map (fun i =>
    let w := (l.take (i + 1)).drop (i + 1 - win)
    if w.length < minp then none else some (w.sum / (w.length : ℚ)))

/-- `smooth_vol_ratio` from indicators.py: ratio of ATR to its rolling
mean (min window = half the period), neutral-seeded to 1.0 where the
denominator is NaN or near zero (`mask` + `fillna`), clipped to
[0.1, 10.0], then smoothed with `ewm(span=ema_span, adjust=False)`. -/
def smooth_vol_ratio (atr : List ℚ) (win_ma ema_span : ℕ) : List ℚ :=
  let minp := max 1 (win_ma / 2)
  let atr_ma := rollingMeanMin win_ma minp atr
  let safe_den := atr_ma.map (fun o => o.bind (fun m => if |m| ≤ _EPS then none else some m))
  let vr0 := List.zipWith (fun a d => Option.map (fun m => a / m) d) atr safe_den
  let vr := vr0.map (fun o => _clamp (o.getD 1) (1/10) 10)
  ewmMean (spanAlpha ema_span) vr

/-! ## behavior_engine.py

The behavior engine multiplies by exponentially decaying weights and
squashes through `np.tanh`, so it is modelled over the reals
(noncomputably, with classical decidability for the comparisons).  A
market-data dict row is modelled as a record of optional fields
(`.get(k, d)` = `.getD d`); the `"open"` key is named `open_p` because
`open` is reserved in Lean.
-/

section BehaviorEngine

open scoped Classical

/-- One market-data row as consumed by behavior_engine.py. -/
structure BCandle where
  time : Option ℤ := none
  open_p : Option ℝ := none
  high : Option ℝ := none
  low : Option ℝ := none
  close : Option ℝ := none
  volume : Option ℝ := none
  price : Option ℝ := none

/-- The all-absent row (used only as the default of safe indexing). -/
def defaultBCandle : BCandle := {}

/-- `np.mean` of a list of reals. -/
noncomputable def meanR (l : List ℝ) : ℝ := l.sum / (l.length : ℝ)

/-- Python `l[-n:]`: the last `n` elements. -/
def lastN {α : Type} (n : ℕ) (l : List α) : List α := l.drop (l.length - n)

/-- `max(lo, min(hi, x))` over ℝ (`np.clip`). -/
noncomputable def clampR (x lo hi : ℝ) : ℝ := max lo (min hi x)

theorem clampR_mem (x lo hi : ℝ) (h : lo ≤ hi) :
    lo ≤ clampR x lo hi ∧ clampR x lo hi ≤ hi := by
  constructor
  · exact le_max_left _ _
  · exact max_le h (min_le_left _ _)

/-- `compute_volume_spike_score` from behavior_engine.py. -/
noncomputable def compute_volume_spike_score (volume_history : List ℝ)
    (window : ℕ := 20) : ℝ :=
  if volume_history = [] ∨ volume_history.length < window then 0
  else
    let volumes := lastN window volume_history
    if ∀ v ∈ volumes, v = 0 then 0
    else
      let recent_volume := volumes.getLastD 0
      let mean_volume :=
        if 1 < volumes.length then meanR volumes.dropLast else recent_volume
      if mean_volume ≤ 0 then 0
      else
        let ratio := recent_volume / mean_volume
        min 100 (max 0 (50 + (ratio - 1) * 25))

/-- `compute_volatility_shift_score` from behavior_engine.py. -/
noncomputable def compute_volatility_shift_score (atr_history : List ℝ)
    (window : ℕ := 20) : ℝ :=
  if atr_history = [] ∨ atr_history.length < window then 0
  else
    let atrs := lastN window atr_history
    if ∀ v ∈ atrs, v = 0 then 0
    else
      let recent_atr := atrs.getLastD 0
      let mean_atr :=
        if 1 < atrs.length then meanR atrs.dropLast else recent_atr
      if mean_atr ≤ 0 then 0
      else
        let ratio := recent_atr / mean_atr
        min 100 (max 0 (50 + (ratio - 1) * 50))

/-- `compute_momentum_burst_score` from behavior_engine.py. -/
noncomputable def compute_momentum_burst_score (price_history : List ℝ)
    (window : ℕ := 10) : ℝ :=
  if price_history = [] ∨ price_history.length < window then 0
  else
    let prices := lastN window price_history
    if prices.length < 2 then 0
    else
      let returns := List.zipWith (fun prev cur => (cur - prev) / prev) prices prices.tail
      if returns = [] then 0
      else
        let recent_return := |returns.getLastD 0|
        let mean_return :=
          if 1 < returns.length then meanR ((returns.dropLast).map (fun r => |r|))
          else recent_return
        if mean_return ≤ 0 then 0
        else
          let ratio := recent_return / mean_return
          min 100 (max 0 (50 + (ratio - 1) * 25))

/-- `compute_vsa_absorption` from behavior_engine.py. -/
noncomputable def compute_vsa_absorption (market_data : List BCandle)
    (window : ℕ := 20) : ℝ × String :=
  if market_data = [] ∨ market_data.length < window then (0, "NO_DATA")
  else
    let recent := lastN window market_data
    let pairs := recent.filterMap (fun c =>
      let vol := c.volume.getD 0
      let high := c.high.getD (c.close.getD 0)
      let low := c.low.getD (c.close.getD 0)
      let spread := high - low
      if 0 < vol ∧ 0 < spread then some (vol, spread) else none)
    let volumes := pairs.map Prod.fst
    let spreads := pairs.map Prod.snd
    if volumes.length < 5 then (0, "NO_DATA")
    else
      let current_vol := volumes.getLastD 0
      let current_spread := spreads.getLastD 0
      let avg_vol := if 1 < volumes.length then meanR volumes.dropLast else current_vol
      let avg_spread := if 1 < spreads.length then meanR spreads.dropLast else current_spread
      if avg_vol ≤ 0 ∨ avg_spread ≤ 0 then (0, "NORMAL")
      else
        let vol_ratio := current_vol / avg_vol
        let spread_ratio := if 0 < avg_spread then current_spread / avg_spread else 1
        let effort_result_ratio := vol_ratio / (spread_ratio + 1/1000000)
        let absorption_score := min 100 (max 0 ((effort_result_ratio - 1) * 50))
        let signal :=
          if 2 < effort_result_ratio ∧ (3/2 : ℝ) < vol_ratio then "ABSORPTION"
          else if effort_result_ratio < 1/2 ∧ (3/2 : ℝ) < vol_ratio then "DISTRIBUTION"
          else "NORMAL"
        (absorption_score, signal)

/-- UTC hour of day of an epoch-second timestamp
(`datetime.fromtimestamp(ts, tz=utc).hour`); Lean integer `/` and `%`
are Euclidean, matching the floor semantics of the Python conversion. -/
def hourOf (ts : ℤ) : ℤ := (ts / 3600) % 24

/-- `compute_relative_volume` from behavior_engine.py. -/
noncomputable def compute_relative_volume (market_data : List BCandle)
    (window : ℕ := 50) : ℝ :=
  if market_data = [] ∨ market_data.length < window then 1
  else
    let cwt := market_data.filterMap (fun c =>
      c.time.bind (fun t =>
        if 0 < c.volume.getD 0 then some (t, c.volume.getD 0) else none))
    if cwt.length < window then 1
    else
      let current_time := (cwt.getLastD (0, 0)).1
      let current_hour := hourOf current_time
      let same_hour_volumes := (cwt.dropLast).filterMap (fun p =>
        if |hourOf p.1 - current_hour| ≤ 1 then some p.2 else none)
      let avg_vol_opt : Option ℝ :=
        if same_hour_volumes.length < 5 then
          let volumes := ((lastN window cwt).dropLast).map Prod.snd
          if volumes.length < 5 then none else some (meanR volumes)
        else some (meanR same_hour_volumes)
      match avg_vol_opt with
      | none => 1
      | some avg_vol =>
        if avg_vol ≤ 0 then 1
        else clampR ((cwt.getLastD (0, 0)).2 / avg_vol) (1/10) 10

/-- `compute_whale_bias` from behavior_engine.py.  The recency weights
are `np.exp(np.linspace(-2, 0, n))`; for `n = 1` the linspace is `[-2]`,
which the uniform formula also yields since `i = 0`. -/
noncomputable def compute_whale_bias (market_data : List BCandle)
    (window : ℕ := 20) : ℝ × String :=
  if market_data = [] ∨ market_data.length < window then (0, "NEUTRAL")
  else
    let recent := lastN window market_data
    let deltas := recent.filterMap (fun c =>
      let close := c.close.getD 0
      let open_price := c.open_p.getD close
      let vol := c.volume.getD 0
      if vol ≤ 0 then none
      else
        let price_change := (close - open_price) / (open_price + 1/1000000)
        some (price_change * min (vol / 1000000) 1))
    if deltas.length < 5 then (0, "NEUTRAL")
    else
      let n := deltas.length
      let weights := (List.range n).map (fun i =>
        Real.exp (-2 + (i : ℝ) * (2 / ((n : ℝ) - 1))))
      let weighted_delta := (List.zipWith (fun d w => d * w) deltas weights).sum / weights.sum
      let whale_bias := Real.tanh (weighted_delta * 10)
      let direction :=
        if (3/10 : ℝ) < whale_bias then "BULLISH"
        else if whale_bias < -(3/10) then "BEARISH"
        else "NEUTRAL"
      (whale_bias, direction)

/-- The result dict of `compute_behavior_score`. -/
structure BehaviorResult where
  behavior_score : ℝ
  volume_spike_score : ℝ
  volatility_shift_score : ℝ
  momentum_burst_score : ℝ
  vsa_absorption_score : ℝ
  vsa_signal : String
  rvol : ℝ
  whale_bias : ℝ
  whale_direction : String
  supply_overcoming_demand : Bool
  explanations : List String

/-- `compute_behavior_score` from behavior_engine.py.  Explanation
strings keep the static template text of the source f-strings; the
insufficient-data explanation is verbatim. -/
noncomputable def compute_behavior_score (_symbol : String)
    (market_data : List BCandle)
    (volume_history : Option (List ℝ) := none)
    (atr_history : Option (List ℝ) := none) : BehaviorResult :=
  if market_data = [] ∨ market_data.length < 20 then
    { behavior_score := 0, volume_spike_score := 0, volatility_shift_score := 0,
      momentum_burst_score := 0, vsa_absorption_score := 0, vsa_signal := "NO_DATA",
      rvol := 1, whale_bias := 0, whale_direction := "NEUTRAL",
      supply_overcoming_demand := false,
      explanations := ["Insufficient market data"] }
  else
    let volumes := match volume_history with
      | some (v :: vs) => v :: vs
      | _ => market_data.map (fun d => d.volume.getD 0)
    let prices := market_data.filterMap (fun d =>
      if d.close.getD 0 ≠ 0 ∨ d.price.getD 0 ≠ 0 then
        some (d.close.getD (d.price.getD 0)) else none)
    let atr_hist := match atr_history with
      | some l => l
      | none => (List.range (prices.length - 1)).map (fun j =>
          let i := j + 1
          ((market_data.getD i defaultBCandle).high.getD (prices.getD i 0)) -
          ((market_data.getD i defaultBCandle).low.getD (prices.getD i 0)))
    let vol_score := compute_volume_spike_score volumes
    let vol_shift_score := if atr_hist = [] then 0 else compute_volatility_shift_score atr_hist
    let momentum_score := compute_momentum_burst_score prices
    let vsa := compute_vsa_absorption market_data
    let vsa_score := vsa.1
    let vsa_signal := vsa.2
    let rvol := compute_relative_volume market_data
    let whale := compute_whale_bias market_data
    let whale_bias := whale.1
    let whale_direction := whale.2
    let supply_overcoming_demand : Bool :=
      decide (vsa_signal = "DISTRIBUTION" ∨
        (vsa_signal = "ABSORPTION" ∧ whale_bias < -(2/10)))
    let whale_score := 50 + whale_bias * 25
    let behavior_score :=
      (20/100 : ℝ) * vol_score + (25/100) * vol_shift_score +
      (20/100) * momentum_score + (20/100) * vsa_score + (15/100) * whale_score
    let explanations :=
      (if (60 : ℝ) < vol_score then ["Volume increased above average (spike score)"]
       else if vol_score < 40 then ["Volume below average (spike score)"] else []) ++
      (if (60 : ℝ) < vol_shift_score then ["ATR expansion indicates high volatility"]
       else if vol_shift_score < 40 then ["Low volatility environment"] else []) ++
      (if (60 : ℝ) < momentum_score then ["Strong price impulse detected"]
       else if momentum_score < 40 then ["Weak momentum"] else []) ++
      (if vsa_signal = "ABSORPTION" then ["VSA: Absorption detected"]
       else if vsa_signal = "DISTRIBUTION" then ["VSA: Distribution detected"] else []) ++
      (if (3/2 : ℝ) < rvol then ["RVOL: volume significantly above same-time-of-day average"]
       else if rvol < 7/10 then ["RVOL: volume below same-time-of-day average"] else []) ++
      (if whale_direction = "BULLISH" then ["Whale Bias: institutional buy pressure"]
       else if whale_direction = "BEARISH" then ["Whale Bias: institutional sell pressure"] else []) ++
      (if supply_overcoming_demand = true then
        ["Supply overcoming demand - potential reversal signal"] else [])
    { behavior_score := behavior_score,
      volume_spike_score := vol_score,
      volatility_shift_score := vol_shift_score,
      momentum_burst_score := momentum_score,
      vsa_absorption_score := vsa_score,
      vsa_signal := vsa_signal,
      rvol := rvol,
      whale_bias := whale_bias,
      whale_direction := whale_direction,
      supply_overcoming_demand := supply_overcoming_demand,
      explanations :=
        if explanations = [] then ["Market behavior within normal ranges"] else explanations }

end BehaviorEngine

/-! ## main.py exit management -/

/-- `_maybe_close_position` from main.py, as a transition on the open
position: returns the resulting position (possibly with the stop moved
to breakeven) and the close reason when the position was closed.  The
bookkeeping of `_close_position` (balance/equity/logging/notification)
is elided; closing is modelled as clearing the position and reporting
the reason string. -/
def _maybe_close_position (position : Option Position) (current_price : ℚ) :
    Option Position × Option String :=
  match position with
  | none => (none, none)
  | some pos =>
    let entry := pos.entry_price
    let qty := pos.qty
    if qty ≤ 0 ∨ entry ≤ 0 then (some pos, none)
    else
      let risk_per_unit := match pos.stop_price with
        | some s => |entry - s|
        | none => 0
      let step1 : Option Position × Option String :=
        if 0 < risk_per_unit then
          let direction : ℚ := if pos.side = "LONG" then 1 else -1
          let r_mult := ((current_price - entry) * direction) / risk_per_unit
          let tp_r_level : ℚ := 7/10
          let be_r_level : ℚ := 35/100
          if tp_r_level ≤ r_mult then (none, some "TP_HIT")
          else if be_r_level ≤ r_mult ∧ pos.breakeven_armed = false then
            (some { pos with stop_price := some entry, breakeven_armed := true }, none)
          else (some pos, none)
        else (some pos, none)
      match step1 with
      | (none, r) => (none, r)
      | (some pos2, _) =>
        match pos2.stop_price with
        | none => (some pos2, none)
        | some stop_now =>
          let breached :=
            (pos2.side = "LONG" ∧ current_price ≤ stop_now) ∨
            (pos2.side = "SHORT" ∧ stop_now ≤ current_price)
          if breached then (none, some "STOP_HIT") else (some pos2, none)

/-! ## market_providers.py gateway -/

/-- Outcome of one provider attempt: `ok` is a returned candle list
(`[]` covers both `None` and an empty list, which are equally falsy at
the `if candles:` check), `err` is a raised exception message. -/
inductive ProviderOutcome (α : Type) where
  | ok (candles : List α)
  | err (msg : String)

/-- Python truthiness of the returned candle list. -/
def ProviderOutcome.succeeds {α : Type} : ProviderOutcome α → Bool
  | .ok (_ :: _) => true
  | _ => false

/-- ASCII lower-casing of one character (`str.lower()` on the ASCII
provider names the gateway handles). -/
def lowerChar (c : Char) : Char :=
  if 'A' ≤ c ∧ c ≤ 'Z' then Char.ofNat (c.toNat + 32) else c

/-- Python `provider_name.lower()`, modelled structurally over the
character list. -/
def toLowerStr (s : String) : String := ⟨s.data.map lowerChar⟩

/-- `MarketDataResponse` dataclass from market_providers.py. -/
structure MarketDataResponse (α : Type) where
  data : Option (List α)
  provider : String
  confidence : ℚ
  fallback_used : Bool
  error : Option String := none

/-- The fixed fallback order of `MarketDataGateway.get_candles`. -/
def providers_order : List String := ["wallex", "coingecko", "coincap"]

/-- The auto-select loop of `MarketDataGateway.get_candles`: providers
tried in order with a running 0-based index and an `attempted` log;
a failure or empty result advances to the next provider. -/
def gatewayLoop {α : Type} (env : String → ProviderOutcome α) :
    List String → ℕ → List String → MarketDataResponse α
  | [], _, attempted =>
    { data := none, provider := "none", confidence := 0, fallback_used := true,
      error := some ("All providers failed. Attempted: " ++ String.intercalate ", " attempted) }
  | prov_name :: rest, idx, attempted =>
    let attempted2 := attempted ++ [prov_name]
    match env prov_name with
    | .ok (c :: cs) =>
      { data := some (c :: cs), provider := prov_name,
        confidence := 1 - (idx : ℚ) * (2/10), fallback_used := decide (0 < idx) }
    | .ok [] => gatewayLoop env rest (idx + 1) attempted2
    | .err _ => gatewayLoop env rest (idx + 1) attempted2

/-- `MarketDataGateway.get_candles` from market_providers.py.  The
gateway is modelled by its configuration (`preferred` =
`self.preferred_provider`) and an environment assigning each provider
name its outcome for this call; `required` is the `required_provider`
argument.  `provider_name = required_provider or self.preferred_provider`
selects the single-provider branch whenever either is set. -/
def gateway_get_candles {α : Type} (preferred required : Option String)
    (env : String → ProviderOutcome α) : MarketDataResponse α :=
  match required.orElse (fun _ => preferred) with
  | some provider_name =>
    if ¬ (toLowerStr provider_name = "wallex" ∨ toLowerStr provider_name = "coingecko" ∨
          toLowerStr provider_name = "coincap") then
      { data := none, provider := "none", confidence := 0, fallback_used := false,
        error := some ("Unknown provider: " ++ provider_name) }
    else
      match env (toLowerStr provider_name) with
      | .ok (c :: cs) =>
        { data := some (c :: cs), provider := toLowerStr provider_name,
          confidence := 1, fallback_used := false }
      | .ok [] =>
        { data := none, provider := toLowerStr provider_name, confidence := 0,
          fallback_used := false, error := some (provider_name ++ " returned no data") }
      | .err e =>
        { data := none, provider := toLowerStr provider_name, confidence := 0,
          fallback_used := false, error := some e }
  | none => gatewayLoop env providers_order 0 []

/-! ## Theorems -/

section Helpers

/-- Every element produced by a `zipWith` satisfies any property closed
under the combining function. -/
theorem forall_mem_zipWith {α β γ : Type} {f : α → β → γ} {P : γ → Prop}
    (h : ∀ a b, P (f a b)) :
    ∀ (l1 : List α) (l2 : List β), ∀ x ∈ List.zipWith f l1 l2, P x := by
  intro l1
  induction l1 with
  | nil => intro l2 x hx; simp at hx
  | cons a l ih =>
    intro l2 x hx
    cases l2 with
    | nil => simp at hx
    | cons b l2t =>
      simp only [List.zipWith_cons_cons, List.mem_cons] at hx
      rcases hx with rfl | hx
      · exact h a b
      · exact ih l2t x hx

/-- `List.getD` satisfies any property that holds of the default and of
every element. -/
theorem getD_of_forall_mem {α : Type} {P : α → Prop} {l : List α} {d : α}
    (hd : P d) (h : ∀ x ∈ l, P x) (i : ℕ) : P (l.getD i d) := by
  induction l generalizing i with
  | nil => simpa [List.getD] using hd
  | cons a t ih =>
    cases i with
    | zero => simpa [List.getD] using h a (List.mem_cons_self a t)
    | succ j =>
      simpa [List.getD] using ih (fun x hx => h x (List.mem_cons_of_mem a hx)) j

/-- The exponential smoothing recursion keeps values inside any interval
containing the seed and all inputs, provided `0 ≤ α ≤ 1` (each step is a
convex combination). -/
theorem ewmAux_mem_Icc {α lo hi : ℚ} (h0 : 0 ≤ α) (h1 : α ≤ 1) :
    ∀ (l : List ℚ) (y : ℚ), lo ≤ y → y ≤ hi → (∀ x ∈ l, lo ≤ x ∧ x ≤ hi) →
      ∀ z ∈ ewmAux α y l, lo ≤ z ∧ z ≤ hi := by
  intro l
  induction l with
  | nil => intro y _ _ _ z hz; simp [ewmAux] at hz
  | cons x xs ih =>
    intro y hy1 hy2 hl z hz
    have hx := hl x (List.mem_cons_self x xs)
    have hstep1 : lo ≤ (1 - α) * y + α * x := by
      nlinarith [mul_nonneg (sub_nonneg.mpr h1) (sub_nonneg.mpr hy1),
        mul_nonneg h0 (sub_nonneg.mpr hx.1)]
    have hstep2 : (1 - α) * y + α * x ≤ hi := by
      nlinarith [mul_nonneg (sub_nonneg.mpr h1) (sub_nonneg.mpr hy2),
        mul_nonneg h0 (sub_nonneg.mpr hx.2)]
    simp only [ewmAux, List.mem_cons] at hz
    rcases hz with rfl | hz
    · exact ⟨hstep1, hstep2⟩
    · exact ih ((1 - α) * y + α * x) hstep1 hstep2
        (fun v hv => hl v (List.mem_cons_of_mem x hv)) z hz

/-- `ewm(adjust=False).mean` keeps values inside any interval containing
all inputs, for `0 ≤ α ≤ 1`. -/
theorem ewmMean_mem_Icc {α lo hi : ℚ} (h0 : 0 ≤ α) (h1 : α ≤ 1)
    (l : List ℚ) (hl : ∀ x ∈ l, lo ≤ x ∧ x ≤ hi) :
    ∀ z ∈ ewmMean α l, lo ≤ z ∧ z ≤ hi := by
  cases l with
  | nil => intro z hz; simp [ewmMean] at hz
  | cons x xs =>
    intro z hz
    have hx := hl x (List.mem_cons_self x xs)
    simp only [ewmMean, List.mem_cons] at hz
    rcases hz with rfl | hz
    · exact hx
    · exact ewmAux_mem_Icc h0 h1 xs x hx.1 hx.2
        (fun v hv => hl v (List.mem_cons_of_mem x hv)) z hz

end Helpers

/-- C8: every element of `smooth_vol_ratio` lies in [0.1, 10]: invalid
or near-zero denominators are seeded to 1.0, the ratio is clipped to
[0.1, 10], and the short EMA (span ≥ 1) keeps all outputs inside the
interval, for every ATR history including all-zero or negative ones. -/
theorem smooth_vol_ratio_range (atr : List ℚ) (win_ma ema_span : ℕ)
    (hspan : 1 ≤ ema_span) (i : ℕ) :
    1/10 ≤ (smooth_vol_ratio atr win_ma ema_span).getD i 1 ∧
      (smooth_vol_ratio atr win_ma ema_span).getD i 1 ≤ 10 := by
  have hα0 : 0 ≤ spanAlpha ema_span := by
    unfold spanAlpha; positivity
  have hα1 : spanAlpha ema_span ≤ 1 := by
    unfold spanAlpha
    rw [div_le_one (by positivity)]
    have h1 : (1 : ℚ) ≤ (ema_span : ℚ) := by exact_mod_cast hspan
    linarith
  refine getD_of_forall_mem (P := fun q => 1/10 ≤ q ∧ q ≤ 10) (by norm_num) ?_ i
  intro x hx
  unfold smooth_vol_ratio at hx
  refine ewmMean_mem_Icc hα0 hα1 _ ?_ x hx
  intro v hv
  simp only [List.mem_map] at hv
  obtain ⟨o, _, rfl⟩ := hv
  exact _clamp_mem _ _ _ (by norm_num)

/-- C8 witness: the bound applied to a degenerate all-nonpositive ATR
history with default windows. -/
theorem smooth_vol_ratio_range_witness :
    1/10 ≤ (smooth_vol_ratio [0, -3, 5] 14 5).getD 1 1 ∧
      (smooth_vol_ratio [0, -3, 5] 14 5).getD 1 1 ≤ 10 :=
  smooth_vol_ratio_range [0, -3, 5] 14 5 (by decide) 1

section RangeLemmas

/-- Bounds of the `min(100, max(0, e))` normalization used by the
behavior sub-scores. -/
theorem min100max0_mem (e : ℝ) : 0 ≤ min 100 (max 0 e) ∧ min 100 (max 0 e) ≤ 100 :=
  ⟨le_min (by norm_num) (le_max_left _ _), min_le_left _ _⟩

/-- The squashing nonlinearity `tanh` stays in [−1, 1]. -/
theorem tanh_mem_Icc (x : ℝ) : -1 ≤ Real.tanh x ∧ Real.tanh x ≤ 1 := by
  have hc := Real.cosh_pos x
  constructor
  · rw [Real.tanh_eq_sinh_div_cosh, le_div_iff₀ hc]
    have h := Real.sinh_add_cosh x
    have he := Real.exp_pos x
    linarith
  · rw [Real.tanh_eq_sinh_div_cosh, div_le_one hc]
    have h := Real.cosh_sub_sinh x
    have he := Real.exp_pos (-x)
    linarith

theorem compute_volume_spike_score_mem (vh : List ℝ) (w : ℕ) :
    0 ≤ compute_volume_spike_score vh w ∧ compute_volume_spike_score vh w ≤ 100 := by
  simp only [compute_volume_spike_score]
  split_ifs <;> first | exact min100max0_mem _ | norm_num

theorem compute_volatility_shift_score_mem (ah : List ℝ) (w : ℕ) :
    0 ≤ compute_volatility_shift_score ah w ∧ compute_volatility_shift_score ah w ≤ 100 := by
  simp only [compute_volatility_shift_score]
  split_ifs <;> first | exact min100max0_mem _ | norm_num

theorem compute_momentum_burst_score_mem (ph : List ℝ) (w : ℕ) :
    0 ≤ compute_momentum_burst_score ph w ∧ compute_momentum_burst_score ph w ≤ 100 := by
  simp only [compute_momentum_burst_score]
  split_ifs <;> first | exact min100max0_mem _ | norm_num

set_option maxHeartbeats 1000000 in
theorem compute_vsa_absorption_score_mem (md : List BCandle) (w : ℕ) :
    0 ≤ (compute_vsa_absorption md w).1 ∧ (compute_vsa_absorption md w).1 ≤ 100 := by
  simp only [compute_vsa_absorption]
  split_ifs <;> first | exact min100max0_mem _ | norm_num

set_option maxHeartbeats 1000000 in
theorem compute_whale_bias_mem (md : List BCandle) (w : ℕ) :
    -1 ≤ (compute_whale_bias md w).1 ∧ (compute_whale_bias md w).1 ≤ 1 := by
  simp only [compute_whale_bias]
  split_ifs <;> first | exact tanh_mem_Icc _ | norm_num

/-- The weighted combination of four [0,100] scores and a remapped
whale bias stays in [0,100]. -/
theorem weighted_combo_mem {a b c d wb : ℝ} (ha : 0 ≤ a ∧ a ≤ 100)
    (hb : 0 ≤ b ∧ b ≤ 100) (hc : 0 ≤ c ∧ c ≤ 100) (hd : 0 ≤ d ∧ d ≤ 100)
    (hw : -1 ≤ wb ∧ wb ≤ 1) :
    0 ≤ (20/100 : ℝ) * a + (25/100) * b + (20/100) * c + (20/100) * d +
        (15/100) * (50 + wb * 25) ∧
      (20/100 : ℝ) * a + (25/100) * b + (20/100) * c + (20/100) * d +
        (15/100) * (50 + wb * 25) ≤ 100 := by
  obtain ⟨ha1, ha2⟩ := ha
  obtain ⟨hb1, hb2⟩ := hb
  obtain ⟨hc1, hc2⟩ := hc
  obtain ⟨hd1, hd2⟩ := hd
  obtain ⟨hw1, hw2⟩ := hw
  constructor <;> nlinarith

theorem compute_behavior_score_mem (symbol : String) (md : List BCandle)
    (vh ah : Option (List ℝ)) :
    0 ≤ (compute_behavior_score symbol md vh ah).behavior_score ∧
      (compute_behavior_score symbol md vh ah).behavior_score ≤ 100 := by
  unfold compute_behavior_score
  split_ifs with h
  · dsimp only []
    norm_num
  · dsimp only []
    refine weighted_combo_mem (compute_volume_spike_score_mem _ _) ?_
      (compute_momentum_burst_score_mem _ _) (compute_vsa_absorption_score_mem _ _)
      (compute_whale_bias_mem _ _)
    split_ifs
    · norm_num
    · exact compute_volatility_shift_score_mem _ _

theorem compute_behavior_whale_bias_mem (symbol : String) (md : List BCandle)
    (vh ah : Option (List ℝ)) :
    -1 ≤ (compute_behavior_score symbol md vh ah).whale_bias ∧
      (compute_behavior_score symbol md vh ah).whale_bias ≤ 1 := by
  unfold compute_behavior_score
  split_ifs with h
  · dsimp only []
    norm_num
  · dsimp only []
    exact compute_whale_bias_mem _ _

theorem calculate_rsi_values_mem (s : List ℚ) (period : ℕ) :
    ∀ x ∈ calculate_rsi s period, 0 ≤ x.getD 50 ∧ x.getD 50 ≤ 100 := by
  intro x hx
  cases s with
  | nil => simp [calculate_rsi] at hx
  | cons a t =>
    simp only [calculate_rsi, List.mem_cons] at hx
    rcases hx with rfl | hx
    · norm_num [Option.getD]
    · rw [List.mem_map] at hx
      obtain ⟨v, hv, rfl⟩ := hx
      have hb := forall_mem_zipWith (P := fun q => 0 ≤ q ∧ q ≤ 100)
        (fun u d => _clamp_mem _ 0 100 (by norm_num)) _ _ v hv
      simpa [Option.getD] using hb

theorem calculate_adx_values_mem (df : List OhlcBar) (period : ℕ) :
    ∀ x ∈ calculate_adx df period, 0 ≤ x ∧ x ≤ 100 := by
  intro x hx
  cases df with
  | nil => simp [calculate_adx] at hx
  | cons b t =>
    simp only [calculate_adx] at hx
    rw [List.mem_map] at hx
    obtain ⟨v, _, rfl⟩ := hx
    exact _clamp_mem _ _ _ (by norm_num)

end RangeLemmas

/-- C7: for all inputs, every present value of the RSI series and every
value of the ADX series lies in [0,100] (the head of the RSI series is
the `diff` NaN and carries no value; `getD` reads a present value or an
in-range default), the combined behavior score lies in [0,100], the
whale bias lies in [−1,1], and the aggregate produced by
`gate_and_weight` lies in [−2,2]. -/
theorem indicator_and_score_ranges :
    (∀ (s : List ℚ) (period i : ℕ),
        0 ≤ ((calculate_rsi s period).getD i (some 50)).getD 50 ∧
          ((calculate_rsi s period).getD i (some 50)).getD 50 ≤ 100) ∧
    (∀ (df : List OhlcBar) (period i : ℕ),
        0 ≤ (calculate_adx df period).getD i 0 ∧
          (calculate_adx df period).getD i 0 ≤ 100) ∧
    (∀ (symbol : String) (md : List BCandle) (vh ah : Option (List ℝ)),
        0 ≤ (compute_behavior_score symbol md vh ah).behavior_score ∧
          (compute_behavior_score symbol md vh ah).behavior_score ≤ 100) ∧
    (∀ (symbol : String) (md : List BCandle) (vh ah : Option (List ℝ)),
        -1 ≤ (compute_behavior_score symbol md vh ah).whale_bias ∧
          (compute_behavior_score symbol md vh ah).whale_bias ≤ 1) ∧
    (∀ (p : StrategyParams) (dc : DecisionContext),
        -2 ≤ (SignalEngine.gate_and_weight p dc).aggregate_s ∧
          (SignalEngine.gate_and_weight p dc).aggregate_s ≤ 2) := by
  refine ⟨?_, ?_, compute_behavior_score_mem, compute_behavior_whale_bias_mem, ?_⟩
  · intro s period i
    exact getD_of_forall_mem (P := fun (o : Option ℚ) => 0 ≤ o.getD 50 ∧ o.getD 50 ≤ 100)
      (by norm_num [Option.getD]) (calculate_rsi_values_mem s period) i
  · intro df period i
    exact getD_of_forall_mem (P := fun q => 0 ≤ q ∧ q ≤ 100)
      (by norm_num) (calculate_adx_values_mem df period) i
  · intro p dc
    unfold SignalEngine.gate_and_weight
    dsimp only []
    exact _clamp_mem _ _ _ (by norm_num)

/-- C10: `gate_and_weight` writes only the post-gate channels and the
aggregate: all raw-input and metadata fields are unchanged and the
reasons list is only appended to (the original entries stay as a prefix
in order). -/
theorem gate_and_weight_frame (p : StrategyParams) (dc : DecisionContext) :
    (SignalEngine.gate_and_weight p dc).trend_raw = dc.trend_raw ∧
    (SignalEngine.gate_and_weight p dc).momentum_raw = dc.momentum_raw ∧
    (SignalEngine.gate_and_weight p dc).meanrev_raw = dc.meanrev_raw ∧
    (SignalEngine.gate_and_weight p dc).breakout_raw = dc.breakout_raw ∧
    (SignalEngine.gate_and_weight p dc).adx = dc.adx ∧
    (SignalEngine.gate_and_weight p dc).atr = dc.atr ∧
    (SignalEngine.gate_and_weight p dc).price = dc.price ∧
    (SignalEngine.gate_and_weight p dc).tf = dc.tf ∧
    (SignalEngine.gate_and_weight p dc).regime = dc.regime ∧
    (SignalEngine.gate_and_weight p dc).vol_ratio = dc.vol_ratio ∧
    (SignalEngine.gate_and_weight p dc).timestamp = dc.timestamp ∧
    (SignalEngine.gate_and_weight p dc).behavior_score = dc.behavior_score ∧
    (SignalEngine.gate_and_weight p dc).behavior_bias = dc.behavior_bias ∧
    (SignalEngine.gate_and_weight p dc).behavior_details = dc.behavior_details ∧
    (SignalEngine.gate_and_weight p dc).behavior_providers = dc.behavior_providers ∧
    ∃ t, (SignalEngine.gate_and_weight p dc).reasons = dc.reasons ++ t :=
  ⟨rfl, rfl, rfl, rfl, rfl, rfl, rfl, rfl, rfl, rfl, rfl, rfl, rfl, rfl, rfl, ⟨_, rfl⟩⟩

/-- C5: `position_size_by_risk` returns 0 whenever the stop is absent;
for finite positive inputs with `entry ≠ stop` it returns
`equity·riskFraction/|entry − stop|`; and
`position_size_by_risk(100000000, 0.01, 100, 90) = 100000`. -/
theorem position_size_by_risk_spec :
    (∀ e f en : ℚ, position_size_by_risk e f en none = 0) ∧
    (∀ e f en s : ℚ, 0 < e → 0 < f → 0 < en → 0 < s → en ≠ s →
      position_size_by_risk e f en (some s) = e * f / |en - s|) ∧
    position_size_by_risk 100000000 (1/100) 100 (some 90) = 100000 := by
  have hgen : ∀ e f en s : ℚ, 0 < e → 0 < f → 0 < en → 0 < s → en ≠ s →
      position_size_by_risk e f en (some s) = e * f / |en - s| := by
    intro e f en s he hf hen _hs hne
    have habs : 0 < |en - s| := abs_pos.mpr (sub_ne_zero.mpr hne)
    unfold position_size_by_risk
    simp only [if_neg (not_not_intro hen), if_neg (not_le.mpr habs),
      max_eq_left he.le, max_eq_left hf.le,
      if_neg (not_le.mpr (div_pos (mul_pos he hf) habs))]
  refine ⟨fun e f en => rfl, hgen, ?_⟩
  rw [hgen 100000000 (1/100) 100 90 (by norm_num) (by norm_num) (by norm_num)
    (by norm_num) (by norm_num)]
  norm_num

/-- C5 witness: the general positive-input clause applied at
`equity = 2, riskFraction = 1/10, entry = 100, stop = 90`. -/
theorem position_size_by_risk_spec_witness :
    position_size_by_risk 2 (1/10) 100 (some 90) = 2 * (1/10) / |(100 : ℚ) - 90| :=
  position_size_by_risk_spec.2.1 2 (1/10) 100 90 (by decide) (by simp)
    (by decide) (by decide) (by decide)

/-- Concrete strategy parameters for the MTF examples: thresholds 0.18,
no decision buffer, `require_mtf_agreement = True`, `mtf_confirm_bar =
0.18`, all other knobs at their defaults and empty dicts. -/
def exampleParamsMTF : StrategyParams :=
  { weights := fun _ => none, s_buy := 18/100, s_sell := 18/100,
    min_adx_for_trend := 20, allow_intracandle := false,
    regime_scale := fun _ => none, max_risk_per_trade := 1/100,
    atr_stop_mult := 2, require_mtf_agreement := true,
    decision_buffer := 0, mtf_confirm_bar := 18/100 }

/-- Primary context of the first MTF example: aggregate 0.25,
vr = 1.0 (no shift), NEUTRAL regime, no behavior details. -/
def examplePrimary : DecisionContext :=
  { trend_raw := 0, momentum_raw := 0, meanrev_raw := 0, breakout_raw := 0,
    adx := 0, atr := 1, price := 100, tf := "240", regime := "NEUTRAL",
    vol_ratio := some 1, aggregate_s := 25/100 }

/-- Primary context of the second MTF example: aggregate +0.5. -/
def examplePrimaryStrong : DecisionContext :=
  { examplePrimary with aggregate_s := 1/2 }

/-- Confirm context of the second MTF example: aggregate −0.5. -/
def exampleConfirmOpp : DecisionContext :=
  { examplePrimary with tf := "60", aggregate_s := -(1/2) }

/-- C1: with `require_mtf_agreement = True`, the MTF check vetoes iff a
confirm context is present and its aggregate opposes the primary
aggregate sign by more than `max(2·buffer, 0.35·mtf_confirm_bar, 0.05)`;
a missing confirm context always passes; and the two spec examples hold:
aggregate 0.25 with thresholds 0.18, no buffer, vr 1 and no confirm
yields BUY, while opposite strong aggregates ±0.5 with confirm bar 0.18
yield HOLD. -/
theorem mtf_veto_characterization :
    (∀ (p : StrategyParams) (dc c : DecisionContext),
      p.require_mtf_agreement = true →
      ((SignalEngine._mtf_confirm_pass p dc (some c)).1 = false ↔
        ((0 < dc.aggregate_s ∧ c.aggregate_s <
            -(max (p.decision_buffer * 2) (max (p.mtf_confirm_bar * (35/100)) (5/100)))) ∨
         (dc.aggregate_s < 0 ∧
            max (p.decision_buffer * 2) (max (p.mtf_confirm_bar * (35/100)) (5/100)) <
              c.aggregate_s)))) ∧
    (∀ (p : StrategyParams) (dc : DecisionContext),
      p.require_mtf_agreement = true →
      (SignalEngine._mtf_confirm_pass p dc none).1 = true) ∧
    (SignalEngine.decide exampleParamsMTF examplePrimary none).1 = "BUY" ∧
    (SignalEngine.decide exampleParamsMTF examplePrimaryStrong (some exampleConfirmOpp)).1
      = "HOLD" := by
  refine ⟨?_, ?_, ?_, ?_⟩
  · intro p dc c h
    simp only [SignalEngine._mtf_confirm_pass, h]
    norm_num
    split_ifs with hA hB
    · simpa using Or.inl hA
    · simpa using Or.inr hB
    · exact ⟨fun hf => absurd hf (by decide), fun hor => (hor.elim hA hB).elim⟩
  · intro p dc h
    simp [SignalEngine._mtf_confirm_pass, h]
  · norm_num [SignalEngine.decide, SignalEngine._mtf_confirm_pass,
      SignalEngine._check_whale_gate, SignalEngine.effective_vr,
      SignalEngine.regime_key, _clamp, exampleParamsMTF, examplePrimary]
  · norm_num [SignalEngine.decide, SignalEngine._mtf_confirm_pass,
      SignalEngine._check_whale_gate, SignalEngine.effective_vr,
      SignalEngine.regime_key, _clamp, exampleParamsMTF, examplePrimary,
      examplePrimaryStrong, exampleConfirmOpp]

/-- C1 witness: the missing-confirm clause applied to the example
parameters and primary context. -/
theorem mtf_veto_characterization_witness :
    (SignalEngine._mtf_confirm_pass exampleParamsMTF examplePrimary none).1 = true :=
  mtf_veto_characterization.2.1 exampleParamsMTF examplePrimary rfl

/-- C4: for an open LONG position with entry 100 and stop 95, one cycle
of exit management closes fully with `TP_HIT` exactly when the price is
at least 103.5 (R ≥ 0.70, checked first, before breakeven arming and the
stop check), moves the stop to the entry (breakeven) exactly when the
price is in [101.75, 103.5) (R ≥ 0.35 with TP not reached), and an
already-armed position is never re-armed (its stop stays put while it
remains open below the TP region). -/
theorem maybe_close_long_100_95 (q price : ℚ) (hq : 0 < q) :
    ((_maybe_close_position (some ⟨"LONG", q, 100, some 95, none, false, false, none⟩) price).2
        = some "TP_HIT" ↔ (207/2 : ℚ) ≤ price) ∧
    (_maybe_close_position (some ⟨"LONG", q, 100, some 95, none, false, false, none⟩) price
        = (some ⟨"LONG", q, 100, some 100, none, true, false, none⟩, none) ↔
      ((407/4 : ℚ) ≤ price ∧ price < 207/2)) ∧
    (∀ pr : ℚ, 100 < pr → pr < 207/2 →
      _maybe_close_position (some ⟨"LONG", q, 100, some 100, none, true, false, none⟩) pr
        = (some ⟨"LONG", q, 100, some 100, none, true, false, none⟩, none)) := by
  have hbase : ¬((q : ℚ) ≤ 0 ∨ (100 : ℚ) ≤ 0) := by
    push_neg
    exact ⟨hq, by norm_num⟩
  refine ⟨?_, ?_, ?_⟩
  · simp only [_maybe_close_position]
    rw [if_neg hbase]
    norm_num
    split_ifs with h1 h2
    · simp only []
      simp
      linarith
    · have hgt : ¬ price ≤ 100 := by linarith
      simp only []
      simp [hgt]
      linarith
    · simp only []
      split_ifs with h3 <;> simp <;> linarith
  · simp only [_maybe_close_position]
    rw [if_neg hbase]
    norm_num
    split_ifs with h1 h2
    · simp only []
      simp
      intro h
      linarith
    · have hgt : ¬ price ≤ 100 := by linarith
      simp only []
      simp [hgt]
      exact ⟨by linarith, by linarith⟩
    · simp only []
      split_ifs with h3 <;> simp <;> intro h <;> linarith
  · intro pr h1 h2
    simp only [_maybe_close_position]
    rw [if_neg hbase]
    norm_num
    rintro (h | ⟨hs, _⟩)
    · linarith
    · exact absurd hs (by decide)

/-- C4 witness: the lifecycle characterization applied at quantity 1,
current price 104. -/
theorem maybe_close_long_100_95_witness :
    (_maybe_close_position (some ⟨"LONG", 1, 100, some 95, none, false, false, none⟩) 104).2
        = some "TP_HIT" ↔ (207/2 : ℚ) ≤ 104 :=
  (maybe_close_long_100_95 1 104 (by decide)).1

/-- Strategy parameters for the low-volatility fast-path input: default
guards, MTF not required. -/
def lowVolFastParams : StrategyParams :=
  { weights := fun _ => none, s_buy := 30/100, s_sell := 30/100,
    min_adx_for_trend := 20, allow_intracandle := false,
    regime_scale := fun _ => none, max_risk_per_trade := 1/100,
    atr_stop_mult := 2, require_mtf_agreement := false,
    decision_buffer := 0, mtf_confirm_bar := 18/100 }

/-- A primary context satisfying every fast-path condition (HIGH regime,
strong trend and breakout, ADX above the minimum, positive entry) whose
volatility ratio is below `min_vr_trade`. -/
def lowVolFastContext : DecisionContext :=
  { trend_raw := 0, momentum_raw := 0, meanrev_raw := 0, breakout_raw := 0,
    adx := 25, atr := 1, price := 100, tf := "240", regime := "HIGH",
    vol_ratio := some 0, trend := 1/2, breakout := 1/2, aggregate_s := 1/2 }

/-- C2 counterexample: at this input every fast-path condition of the
claim holds (trend strength ≥ 0.45, breakout strength ≥ 0.35, ADX above
minimum, MTF passing, HIGH regime, positive entry) and the volatility
ratio is below `min_vr_trade`, yet `decide` returns HOLD with no
position — the low-volatility guard does block the fast path. -/
theorem vol_guard_blocks_fast_path_counterexample :
    (45/100 : ℚ) ≤ |lowVolFastContext.trend| ∧
    (35/100 : ℚ) ≤ |lowVolFastContext.breakout| ∧
    lowVolFastParams.min_adx_for_trend ≤ lowVolFastContext.adx ∧
    (SignalEngine._mtf_confirm_pass lowVolFastParams lowVolFastContext none).1 = true ∧
    SignalEngine.regime_key lowVolFastContext = "HIGH" ∧
    0 < max lowVolFastContext.price 0 ∧
    SignalEngine.effective_vr lowVolFastContext < lowVolFastParams.min_vr_trade ∧
    (SignalEngine.decide lowVolFastParams lowVolFastContext none).1 = "HOLD" ∧
    (SignalEngine.decide lowVolFastParams lowVolFastContext none).2.1 = none := by
  norm_num [SignalEngine.decide, SignalEngine._mtf_confirm_pass,
    SignalEngine._check_whale_gate, SignalEngine.effective_vr,
    SignalEngine.regime_key, _clamp, lowVolFastParams, lowVolFastContext]
  refine ⟨by rw [abs_of_pos] <;> norm_num, by rw [abs_of_pos] <;> norm_num,
    fun hcon => absurd hcon (by decide)⟩

/-- C2 amended: the low-volatility trade guard suppresses every entry
path, the fast path included: whenever the effective volatility ratio is
below `min_vr_trade`, `decide` returns HOLD and proposes no position. -/
theorem vol_guard_blocks_all_entries (p : StrategyParams) (dc : DecisionContext)
    (c : Option DecisionContext)
    (h : SignalEngine.effective_vr dc < p.min_vr_trade) :
    (SignalEngine.decide p dc c).1 = "HOLD" ∧
      (SignalEngine.decide p dc c).2.1 = none := by
  simp only [SignalEngine.decide, h]
  split_ifs <;> first | exact ⟨rfl, rfl⟩ | simp_all

/-- C2 amended witness: the guard theorem applied at the concrete
low-volatility fast-path input. -/
theorem vol_guard_blocks_all_entries_witness :
    (SignalEngine.decide lowVolFastParams lowVolFastContext none).1 = "HOLD" ∧
      (SignalEngine.decide lowVolFastParams lowVolFastContext none).2.1 = none :=
  vol_guard_blocks_all_entries lowVolFastParams lowVolFastContext none
    (by simp [SignalEngine.effective_vr, lowVolFastContext, lowVolFastParams])

/-- Strategy parameters whose regime-scale dict maps HIGH to 1.3 (the
config default), with buy/sell thresholds 0.26 and no buffer. -/
def regimeScaledParams : StrategyParams :=
  { weights := fun _ => none, s_buy := 26/100, s_sell := 26/100,
    min_adx_for_trend := 20, allow_intracandle := false,
    regime_scale := fun r => if r = "HIGH" then some (13/10) else none,
    max_risk_per_trade := 1/100, atr_stop_mult := 2,
    require_mtf_agreement := false, decision_buffer := 0,
    mtf_confirm_bar := 18/100 }

/-- A HIGH-regime context whose aggregate (0.25) lies between the
regime-scaled threshold the code uses and the unscaled threshold the
spec formula claims. -/
def regimeScaledContext : DecisionContext :=
  { trend_raw := 0, momentum_raw := 0, meanrev_raw := 0, breakout_raw := 0,
    adx := 0, atr := 1, price := 100, tf := "240", regime := "HIGH",
    vol_ratio := some (88/100), aggregate_s := 25/100 }

/-- C3 counterexample: at this input the aggregate is strictly below the
threshold the claim says is effective, `s_buy − buffer − shift`
(0.26 − 0 − (−0.03) = 0.29 > 0.25), the MTF check passes, and yet
`decide` enters BUY — because the code divides the buffer-reduced base
threshold by the regime scale (1.3) before shifting, which the claimed
formula omits. -/
theorem threshold_regime_scale_counterexample :
    regimeScaledContext.aggregate_s <
      regimeScaledParams.s_buy - regimeScaledParams.decision_buffer -
        _clamp ((SignalEngine.effective_vr regimeScaledContext - 1) *
            regimeScaledParams.vr_adapt_k)
          (-regimeScaledParams.vr_adapt_clamp) regimeScaledParams.vr_adapt_clamp ∧
    (SignalEngine._mtf_confirm_pass regimeScaledParams regimeScaledContext none).1 = true ∧
    (SignalEngine.decide regimeScaledParams regimeScaledContext none).1 = "BUY" := by
  norm_num [SignalEngine.decide, SignalEngine._mtf_confirm_pass,
    SignalEngine._check_whale_gate, SignalEngine.effective_vr,
    SignalEngine.regime_key, _clamp, regimeScaledParams, regimeScaledContext]

/-- C3 amended: on the threshold path (whale gate silent, fast-path
conditions not met, volatility guard off) `decide` compares the
aggregate against effective thresholds equal to the buffer-reduced base
thresholds divided by the regime scale and then shifted by the
volatility-adaptive clamp term: BUY iff the aggregate reaches
`(s_buy − max(buffer,0))/regime_scale − shift` with MTF passing, SELL
iff it falls below the negated sell analogue (and BUY did not fire). -/
theorem decide_threshold_path (p : StrategyParams) (dc : DecisionContext)
    (c : Option DecisionContext)
    (hwhale : (SignalEngine._check_whale_gate dc dc.trend dc.aggregate_s).1 = false)
    (hfast : ¬(SignalEngine.regime_key dc = "HIGH" ∧
        ((45/100 : ℚ) ≤ |dc.trend| ∧ p.min_adx_for_trend ≤ dc.adx) ∧
        (35/100 : ℚ) ≤ |dc.breakout| ∧
        (SignalEngine._mtf_confirm_pass p dc c).1 = true ∧
        ¬(SignalEngine.effective_vr dc < p.min_vr_trade) ∧ 0 < max dc.price 0))
    (hguard : ¬(SignalEngine.effective_vr dc < p.min_vr_trade)) :
    ((SignalEngine.decide p dc c).1 = "BUY" ↔
      ((p.s_buy - max p.decision_buffer 0) / ((p.regime_scale dc.regime).getD 1) -
          _clamp ((SignalEngine.effective_vr dc - 1) * p.vr_adapt_k)
            (-p.vr_adapt_clamp) p.vr_adapt_clamp ≤ dc.aggregate_s ∧
        (SignalEngine._mtf_confirm_pass p dc c).1 = true)) ∧
    ((SignalEngine.decide p dc c).1 = "SELL" ↔
      ((dc.aggregate_s ≤
          -((p.s_sell - max p.decision_buffer 0) / ((p.regime_scale dc.regime).getD 1) -
            _clamp ((SignalEngine.effective_vr dc - 1) * p.vr_adapt_k)
              (-p.vr_adapt_clamp) p.vr_adapt_clamp) ∧
        (SignalEngine._mtf_confirm_pass p dc c).1 = true) ∧
       ¬((p.s_buy - max p.decision_buffer 0) / ((p.regime_scale dc.regime).getD 1) -
            _clamp ((SignalEngine.effective_vr dc - 1) * p.vr_adapt_k)
              (-p.vr_adapt_clamp) p.vr_adapt_clamp ≤ dc.aggregate_s ∧
          (SignalEngine._mtf_confirm_pass p dc c).1 = true))) := by
  simp only [SignalEngine.decide]
  have hw2 : ¬(((SignalEngine._check_whale_gate dc dc.trend dc.aggregate_s).1 = true) ∧
      ((SignalEngine._check_whale_gate dc dc.trend dc.aggregate_s).2.isSome = true)) := by
    simp [hwhale]
  simp only [if_neg hw2, if_neg hfast, if_neg hguard]
  by_cases h4 : ((p.s_buy - max p.decision_buffer 0) / ((p.regime_scale dc.regime).getD 1) -
      _clamp ((SignalEngine.effective_vr dc - 1) * p.vr_adapt_k)
        (-p.vr_adapt_clamp) p.vr_adapt_clamp ≤ dc.aggregate_s ∧
      (SignalEngine._mtf_confirm_pass p dc c).1 = true)
  · simp only [if_pos h4]
    exact ⟨iff_of_true trivial h4, iff_of_false (by decide) (fun hc => hc.2 h4)⟩
  · simp only [if_neg h4]
    by_cases h5 : (dc.aggregate_s ≤
        -((p.s_sell - max p.decision_buffer 0) / ((p.regime_scale dc.regime).getD 1) -
          _clamp ((SignalEngine.effective_vr dc - 1) * p.vr_adapt_k)
            (-p.vr_adapt_clamp) p.vr_adapt_clamp) ∧
        (SignalEngine._mtf_confirm_pass p dc c).1 = true)
    · simp only [if_pos h5]
      exact ⟨iff_of_false (by decide) h4, iff_of_true trivial ⟨h5, h4⟩⟩
    · simp only [if_neg h5]
      exact ⟨iff_of_false (by decide) h4, iff_of_false (by decide) (fun hc => h5 hc.1)⟩

/-- C3 amended witness: the threshold-path characterization applied at
the concrete HIGH-regime input. -/
theorem decide_threshold_path_witness :
    (SignalEngine.decide regimeScaledParams regimeScaledContext none).1 = "BUY" ↔
      ((regimeScaledParams.s_buy - max regimeScaledParams.decision_buffer 0) /
          ((regimeScaledParams.regime_scale regimeScaledContext.regime).getD 1) -
          _clamp ((SignalEngine.effective_vr regimeScaledContext - 1) *
              regimeScaledParams.vr_adapt_k)
            (-regimeScaledParams.vr_adapt_clamp) regimeScaledParams.vr_adapt_clamp ≤
          regimeScaledContext.aggregate_s ∧
        (SignalEngine._mtf_confirm_pass regimeScaledParams regimeScaledContext none).1
          = true) :=
  (decide_threshold_path regimeScaledParams regimeScaledContext none rfl
    (by simp [SignalEngine.regime_key, regimeScaledContext, regimeScaledParams])
    (by simp [SignalEngine.effective_vr, regimeScaledContext, regimeScaledParams])).1

/-- C9: with fewer than 20 market-data rows, `compute_behavior_score`
returns the zeroed/neutral sentinel (score 0, `NO_DATA` signal, neutral
rvol/whale fields, `supply_overcoming_demand = false`) with the
insufficient-data explanation, rather than failing. -/
theorem compute_behavior_score_insufficient (symbol : String)
    (md : List BCandle) (vh ah : Option (List ℝ)) (h : md.length < 20) :
    compute_behavior_score symbol md vh ah =
      { behavior_score := 0, volume_spike_score := 0, volatility_shift_score := 0,
        momentum_burst_score := 0, vsa_absorption_score := 0, vsa_signal := "NO_DATA",
        rvol := 1, whale_bias := 0, whale_direction := "NEUTRAL",
        supply_overcoming_demand := false,
        explanations := ["Insufficient market data"] } := by
  unfold compute_behavior_score
  rw [if_pos (Or.inr h)]

/-- C9 witness: the sentinel result on an empty market-data list. -/
theorem compute_behavior_score_insufficient_witness :
    compute_behavior_score "BTCUSDT" [] none none =
      { behavior_score := 0, volume_spike_score := 0, volatility_shift_score := 0,
        momentum_burst_score := 0, vsa_absorption_score := 0, vsa_signal := "NO_DATA",
        rvol := 1, whale_bias := 0, whale_direction := "NEUTRAL",
        supply_overcoming_demand := false,
        explanations := ["Insufficient market data"] } :=
  compute_behavior_score_insufficient "BTCUSDT" [] none none (by decide)

/-- The environment of the C6 counterexample: wallex raises, coingecko
returns one candle, coincap raises. -/
def preferredCounterEnv : String → ProviderOutcome Unit := fun n =>
  if n = "coingecko" then ProviderOutcome.ok [()] else ProviderOutcome.err "provider down"

/-- C6 counterexample: a gateway constructed with
`preferred_provider = "wallex"`, called without a required provider,
takes the single-provider branch: although coingecko (order index 1) is
the first provider in the fixed order to return a non-empty candle list,
the response names wallex, has confidence 0, `fallback_used = false` and
no data — no fallback occurs, contradicting the claim for calls without
a required provider. -/
theorem gateway_preferred_counterexample :
    (preferredCounterEnv "coingecko").succeeds = true ∧
    (gateway_get_candles (some "wallex") none preferredCounterEnv).provider = "wallex" ∧
    (gateway_get_candles (some "wallex") none preferredCounterEnv).confidence = 0 ∧
    (gateway_get_candles (some "wallex") none preferredCounterEnv).fallback_used = false ∧
    (gateway_get_candles (some "wallex") none preferredCounterEnv).data = none := by
  refine ⟨rfl, ?_, ?_, ?_, ?_⟩ <;> decide

/-- C6 amended: on a gateway with no preferred provider and no required
provider, providers are tried in the fixed order wallex, coingecko,
coincap; the first to return a non-empty list (order index i) yields its
name, confidence `1 − i·0.2` and `fallback_used = (i > 0)`; if all three
fail or return empty, the response (returned normally) carries no data,
confidence 0, fallback_used true and an error naming all attempted
providers. -/
theorem gateway_auto_fallback_chain {α : Type} (env : String → ProviderOutcome α) :
    (∀ l, env "wallex" = ProviderOutcome.ok l → l ≠ [] →
      gateway_get_candles none none env =
        { data := some l, provider := "wallex", confidence := 1, fallback_used := false }) ∧
    (∀ l, (env "wallex").succeeds = false → env "coingecko" = ProviderOutcome.ok l →
      l ≠ [] →
      gateway_get_candles none none env =
        { data := some l, provider := "coingecko", confidence := 8/10,
          fallback_used := true }) ∧
    (∀ l, (env "wallex").succeeds = false → (env "coingecko").succeeds = false →
      env "coincap" = ProviderOutcome.ok l → l ≠ [] →
      gateway_get_candles none none env =
        { data := some l, provider := "coincap", confidence := 6/10,
          fallback_used := true }) ∧
    ((env "wallex").succeeds = false → (env "coingecko").succeeds = false →
      (env "coincap").succeeds = false →
      gateway_get_candles none none env =
        { data := none, provider := "none", confidence := 0, fallback_used := true,
          error := some "All providers failed. Attempted: wallex, coingecko, coincap" }) := by
  have steploop : ∀ (rest : List String) (idx : ℕ) (att : List String) (name : String),
      (env name).succeeds = false →
      gatewayLoop env (name :: rest) idx att = gatewayLoop env rest (idx + 1) (att ++ [name]) := by
    intro rest idx att name hs
    cases henv : env name with
    | ok cs =>
      cases cs with
      | nil => simp [gatewayLoop, henv]
      | cons c ct => simp [ProviderOutcome.succeeds, henv] at hs
    | err m => simp [gatewayLoop, henv]
  have stepok : ∀ (rest : List String) (idx : ℕ) (att : List String) (name : String)
      (c : α) (ct : List α), env name = ProviderOutcome.ok (c :: ct) →
      gatewayLoop env (name :: rest) idx att =
        { data := some (c :: ct), provider := name,
          confidence := 1 - (idx : ℚ) * (2/10), fallback_used := decide (0 < idx) } := by
    intro rest idx att name c ct henv
    simp [gatewayLoop, henv]
  refine ⟨?_, ?_, ?_, ?_⟩
  · intro l hw hne
    cases l with
    | nil => exact absurd rfl hne
    | cons c ct =>
      show gatewayLoop env providers_order 0 [] = _
      rw [providers_order, stepok _ 0 _ _ c ct hw]
      norm_num
  · intro l hw hcg hne
    cases l with
    | nil => exact absurd rfl hne
    | cons c ct =>
      show gatewayLoop env providers_order 0 [] = _
      rw [providers_order, steploop _ 0 _ _ hw, stepok _ 1 _ _ c ct hcg]
      norm_num
  · intro l hw hcg hcc hne
    cases l with
    | nil => exact absurd rfl hne
    | cons c ct =>
      show gatewayLoop env providers_order 0 [] = _
      rw [providers_order, steploop _ 0 _ _ hw, steploop _ 1 _ _ hcg,
        stepok _ 2 _ _ c ct hcc]
      norm_num
  · intro hw hcg hcc
    show gatewayLoop env providers_order 0 [] = _
    rw [providers_order, steploop _ 0 _ _ hw, steploop _ 1 _ _ hcg,
      steploop _ 2 _ _ hcc]
    simp only [gatewayLoop, String.intercalate, MarketDataResponse.mk.injEq]
    refine ⟨trivial, trivial, trivial, trivial, ?_⟩
    decide

/-- C6 amended witness: the all-failed clause applied to an environment
in which every provider raises. -/
theorem gateway_auto_fallback_chain_witness :
    gateway_get_candles none none (fun _ => ProviderOutcome.err ("down" : String) (α := Unit)) =
      { data := none, provider := "none", confidence := 0, fallback_used := true,
        error := some "All providers failed. Attempted: wallex, coingecko, coincap" } :=
  (gateway_auto_fallback_chain (fun _ => ProviderOutcome.err "down")).2.2.2 rfl rfl rfl

end SmartTrader
